import Mathlib

/-!
Shallow embedding of the trade-document analyzer front-end
(`src/unnamed/part_000`, the variant whose behavior the specification
documents: it carries the in-handler API-key check, the empty-response
check and the status messages; `src/index.tsx` is an earlier revision of
the same component).

The React component `App` holds seven pieces of state: the three file
slots, the `loading` flag, the status message, the result text, the error
text and the copy-button label.  We model that state as a structure and
each event handler (`handleFileChange`, `handleAnalyze`, `handleCopy`) as
a pure function on it.  External effects — the `FileReader`, the network
call to `ai.models.generateContent`, the clipboard and timers — are made
explicit: an `Oracle` supplies the outcome of each external interaction,
and the analyze/copy handlers return, besides the new state, the list of
network requests issued, the file parts encoded, the clipboard writes
performed and the timers scheduled, so that frame claims ("no network
call is issued") are statable.
-/

namespace TradeDocs

/-- A browser `File`: name, size, MIME type and raw byte content. -/
structure File where
  name : String
  size : Nat
  mimeType : String
  content : List Nat
deriving Repr, DecidableEq

/-- A request part, as in `@google/genai`: either plain text or inline
base64 data tagged with a MIME type. -/
inductive Part where
  | text (s : String)
  | inlineData (data : String) (mimeType : String)
deriving Repr, DecidableEq

/-- The standard base64 alphabet used by `FileReader.readAsDataURL`. -/
def base64Alphabet : List Char :=
  "ABCDEFGHIJKLMNOPQRSTUVWXYZabcdefghijklmnopqrstuvwxyz0123456789+/".toList

/-- The base64 digit for a 6-bit value. -/
def b64c (n : Nat) : Char := base64Alphabet.getD n 'A'

/-- Standard base64 with padding, as produced by `readAsDataURL` after the
`data:<mime>;base64,` prefix is split off. -/
def base64Encode : List Nat → String
  | [] => ""
  | [a] => String.mk [b64c (a / 4), b64c (a % 4 * 16), '=', '=']
  | [a, b] => String.mk [b64c (a / 4), b64c (a % 4 * 16 + b / 16), b64c (b % 16 * 4), '=']
  | a :: b :: c :: rest =>
      String.mk [b64c (a / 4), b64c (a % 4 * 16 + b / 16), b64c (b % 16 * 4 + c / 64),
        b64c (c % 64)] ++ base64Encode rest

/-- Embedding of `fileToGenerativePart` (success path): the file's bytes base64-encoded
and paired with the file's MIME type. -/
def fileToGenerativePart (f : File) : Part :=
  Part.inlineData (base64Encode f.content) f.mimeType

/-- The component's React state. -/
structure AppState where
  ciFile : Option File
  plFile : Option File
  blFile : Option File
  loading : Bool
  statusMessage : String
  result : String
  error : String
  copyButtonText : String
deriving Repr, DecidableEq

/-- The `useState` initial values. -/
def initialState : AppState :=
  { ciFile := none, plFile := none, blFile := none, loading := false,
    statusMessage := "", result := "", error := "", copyButtonText := "Copy" }

/-- The three upload slots. -/
inductive Slot where
  | ci
  | pl
  | bl
deriving Repr, DecidableEq

/-- The slot setter passed to `handleFileChange`. -/
def setSlot (slot : Slot) (f : Option File) (s : AppState) : AppState :=
  match slot with
  | Slot.ci => { s with ciFile := f }
  | Slot.pl => { s with plFile := f }
  | Slot.bl => { s with blFile := f }

/-- Embedding of `handleFileChange`: if the change event carries a non-empty file list,
store its first file in the slot and clear both result and error;
otherwise do nothing.  `files = none` models `e.target.files` being null. -/
def handleFileChange (slot : Slot) (files : Option (List File)) (s : AppState) : AppState :=
  match files with
  | some (f :: _) => { setSlot slot (some f) s with result := "", error := "" }
  | _ => s

/-- Embedding of `anyFileUploaded`: at least one slot is populated. -/
def anyFileUploaded (s : AppState) : Bool :=
  s.ciFile.isSome || s.plFile.isSome || s.blFile.isSome

/-- The disabled condition of the analyze button:
`disabled={!anyFileUploaded || loading}`. -/
def analyzeButtonDisabled (s : AppState) : Bool :=
  !anyFileUploaded s || s.loading

/-! ### The extraction orchestrator (`handleAnalyze`) -/

/-- A value thrown inside the `try` block: either an `Error` instance
carrying a message, or any other thrown value (e.g. the `ProgressEvent`
with which `reader.onerror` rejects). -/
inductive Thrown where
  | error (msg : String)
  | nonError
deriving Repr, DecidableEq

/-- The outcome of the `generateContent` call: a response whose `text`
field is the given string (possibly empty), or a rejection. -/
inductive NetReply where
  | success (text : String)
  | thrown (t : Thrown)
deriving Repr, DecidableEq

/-- One outbound request to the model endpoint. -/
structure Request where
  model : String
  parts : List Part
deriving Repr, DecidableEq

/-- Environment of external effects for one `handleAnalyze` run:
whether the `FileReader` errors on a given file, and what the network
exchange yields for a given request. -/
structure Oracle where
  readFails : File → Bool
  net : Request → NetReply

/-- The error message of the no-document rejection. -/
def noDocsMsg : String := "Please upload at least one document to begin analysis."

/-- Status message set right after the guard passes. -/
def preparingMsg : String := "Preparing documents..."

/-- Status message set before file encoding. -/
def readingMsg : String := "Reading file data..."

/-- Status message set before the network call. -/
def analyzingMsg : String := "Analyzing documents with Gemini..."

/-- The message of the error thrown when `process.env.API_KEY` is absent. -/
def apiKeyMissingMsg : String :=
  "API Key is missing. Please check your environment configuration."

/-- The message of the error thrown on an empty model response. -/
def emptyResponseMsg : String :=
  "The model returned an empty response. Please try again with clearer documents."

/-- The default message used when a non-`Error` value is caught. -/
def unexpectedMsg : String := "An unexpected error occurred."

/-- The substring the catch block looks for to detect the SDK's own
missing-key error. -/
def apiKeyNeedle : String := "API Key must be set"

/-- The remapped configuration-error message. -/
def vercelConfigMsg : String :=
  "Configuration Error: The API Key is not being correctly passed to the application. Check your Vercel Environment Variables."

/-- The pinned model identifier. -/
def modelName : String := "gemini-3-flash-preview"

/-- Boolean prefix test on character lists. -/
def charsPrefix : List Char → List Char → Bool
  | [], _ => true
  | _ :: _, [] => false
  | a :: as, b :: bs => a == b && charsPrefix as bs

/-- Boolean infix test on character lists. -/
def charsInfix (needle : List Char) : List Char → Bool
  | [] => charsPrefix needle []
  | c :: cs => charsPrefix needle (c :: cs) || charsInfix needle cs

/-- Here `containsSubstr hay needle` models JavaScript `hay.includes(needle)`. -/
def containsSubstr (hay needle : String) : Bool :=
  charsInfix needle.toList hay.toList

/-- The catch block: a caught `Error`'s message is surfaced, remapped when
it contains the SDK missing-key text; any other thrown value yields the
generic message. -/
def catchMsg : Thrown → String
  | Thrown.error m => if containsSubstr m apiKeyNeedle then vercelConfigMsg else m
  | Thrown.nonError => unexpectedMsg

/-- The fixed extraction prompt (first part of every request). -/
def analyzePrompt : String :=
  "You are an expert AI assistant specializing in international trade document analysis. \nYour task is to extract key data from the uploaded files (Commercial Invoice, Packing List, or Bill of Lading).\n\n**Instructions:**\n1. Extract the following \"General Information\" fields in \"Key: Value\" format.\n2. If multiple documents are provided, cross-reference them for accuracy.\n3. Extract all container details from the Bill of Lading into a formatted table or clear list.\n4. If any field is missing, strictly write \"Not Found\".\n\n**Extraction Fields:**\n- Total Invoice Value (USD)\n- Total Packages\n- SAP Cargo PO\n- Invoice Number\n- BL/AWB Number\n- Shipper\n- Incoterm\n- Description of Goods\n- Carrier\n- Vessel/Voyage\n- Freight Value (USD)\n- CBM (Total Volume)\n\n**Container Details:**\nExtract: Container Number, Seal Number, and Container Type."

/-- The populated slots' files, in the fixed slot order in which
`handleAnalyze` encodes them: invoice, packing list, bill of lading. -/
def populatedFiles (s : AppState) : List File :=
  s.ciFile.toList ++ s.plFile.toList ++ s.blFile.toList

/-- Sequential encoding of the populated files, mirroring the three
`await fileToGenerativePart` pushes: returns the parts encoded before the
first `FileReader` failure, and whether all encodings succeeded. -/
def encodeTrace (o : Oracle) : List File → List Part × Bool
  | [] => ([], true)
  | f :: fs =>
      if o.readFails f then ([], false)
      else
        let r := encodeTrace o fs
        (fileToGenerativePart f :: r.1, r.2)

/-- The request `handleAnalyze` assembles when every encoding succeeds:
the fixed prompt first, then one encoded part per populated slot, in slot
order. -/
def assembledRequest (s : AppState) : Request :=
  { model := modelName,
    parts := Part.text analyzePrompt ::
      ((s.ciFile.map fileToGenerativePart).toList ++
       (s.plFile.map fileToGenerativePart).toList ++
       (s.blFile.map fileToGenerativePart).toList) }

/-- The `finally` block: clear the loading flag and the status message. -/
def finallyStep (s : AppState) : AppState :=
  { s with loading := false, statusMessage := "" }

/-- Result of one `handleAnalyze` run: the final state, the network
requests issued and the file parts actually encoded. -/
structure AnalyzeOutcome where
  finalState : AppState
  calls : List Request
  encoded : List Part
deriving Repr, DecidableEq

/-- Embedding of `handleAnalyze`, step for step:
reject when no slot is populated; otherwise set the busy state, throw if
the API key is absent, encode the populated slots in slot order, send the
single request, and either store the non-empty response text verbatim,
treat an empty response as a thrown error, or surface the caught error's
message; the `finally` block always clears `loading` and the status
message. -/
def handleAnalyze (o : Oracle) (apiKey : Option String) (s : AppState) : AnalyzeOutcome :=
  if s.ciFile.isNone && s.plFile.isNone && s.blFile.isNone then
    { finalState := { s with error := noDocsMsg }, calls := [], encoded := [] }
  else
    let s1 : AppState := { s with
      loading := true, result := "", error := "",
      copyButtonText := "Copy", statusMessage := preparingMsg }
    match apiKey with
    | none =>
        { finalState := finallyStep { s1 with error := catchMsg (Thrown.error apiKeyMissingMsg) },
          calls := [], encoded := [] }
    | some _ =>
        let s2 : AppState := { s1 with statusMessage := readingMsg }
        match encodeTrace o (populatedFiles s) with
        | (enc, false) =>
            { finalState := finallyStep { s2 with error := catchMsg Thrown.nonError },
              calls := [], encoded := enc }
        | (enc, true) =>
            let s3 : AppState := { s2 with statusMessage := analyzingMsg }
            let req : Request := { model := modelName, parts := Part.text analyzePrompt :: enc }
            match o.net req with
            | NetReply.success text =>
                if text = "" then
                  { finalState :=
                      finallyStep { s3 with error := catchMsg (Thrown.error emptyResponseMsg) },
                    calls := [req], encoded := enc }
                else
                  { finalState := finallyStep { s3 with result := text },
                    calls := [req], encoded := enc }
            | NetReply.thrown t =>
                { finalState := finallyStep { s3 with error := catchMsg t },
                  calls := [req], encoded := enc }

/-! ### Copy to clipboard (`handleCopy`) -/

/-- Result of one `handleCopy` invocation: the new state, the strings
written to the clipboard, and the timers scheduled as
(delay in ms, label the callback sets). -/
structure CopyOutcome where
  state : AppState
  clipboardWrites : List String
  timers : List (Nat × String)
deriving Repr, DecidableEq

/-- Embedding of `handleCopy`: a no-op when the result is empty; otherwise write the
result to the clipboard, switch the label to `Copied!` and schedule a
2000 ms timer that resets it to `Copy`. -/
def handleCopy (s : AppState) : CopyOutcome :=
  if s.result = "" then { state := s, clipboardWrites := [], timers := [] }
  else
    { state := { s with copyButtonText := "Copied!" },
      clipboardWrites := [s.result],
      timers := [(2000, "Copy")] }

/-- Firing a scheduled timer applies its label update. -/
def fireTimer (t : Nat × String) (s : AppState) : AppState :=
  { s with copyButtonText := t.2 }

/-! ### The UI event machine

`handleAnalyze` is asynchronous: it runs synchronously up to its first
`await` (setting the busy state) and completes later (the `finally`
block).  To reason about in-flight requests we split it into a start
step and a completion step, and let a step relation range over all UI
events the rendered component can deliver.  `outstanding` counts issued
but uncompleted network requests. -/

/-- UI state plus the number of outstanding network requests. -/
structure MachineState where
  app : AppState
  outstanding : Nat

/-- The synchronous prefix of an accepted `handleAnalyze` run: the busy
state it establishes before its first suspension point. -/
def startAnalyze (s : AppState) : AppState :=
  { s with
    loading := true, result := "", error := "",
    copyButtonText := "Copy", statusMessage := preparingMsg }

/-- How an in-flight analyze run resumes: with a stored result or with a
surfaced error message. -/
inductive Completion where
  | succeeded (text : String)
  | failed (msg : String)

/-- The terminal writes of an analyze run followed by its `finally`
block. -/
def completeAnalyze (c : Completion) (s : AppState) : AppState :=
  match c with
  | Completion.succeeded text => finallyStep { s with result := text }
  | Completion.failed msg => finallyStep { s with error := msg }

/-- One UI event.  `trigger` requires the analyze button to be enabled —
a disabled HTML button delivers no click — and `complete` requires an
outstanding request to complete. -/
inductive Step : MachineState → MachineState → Prop where
  | select (slot : Slot) (files : Option (List File)) (m : MachineState) :
      Step m ⟨handleFileChange slot files m.app, m.outstanding⟩
  | trigger (m : MachineState) :
      analyzeButtonDisabled m.app = false →
      Step m ⟨startAnalyze m.app, m.outstanding + 1⟩
  | complete (c : Completion) (m : MachineState) (n : Nat) :
      m.outstanding = n + 1 →
      Step m ⟨completeAnalyze c m.app, n⟩
  | copy (m : MachineState) :
      Step m ⟨(handleCopy m.app).state, m.outstanding⟩
  | timer (t : Nat × String) (m : MachineState) :
      Step m ⟨fireTimer t m.app, m.outstanding⟩

/-- States reachable from the initial render. -/
inductive Reachable : MachineState → Prop where
  | init : Reachable ⟨initialState, 0⟩
  | step {m m' : MachineState} : Reachable m → Step m m' → Reachable m'

/-! ### Helper lemmas -/

lemma slots_none_iff (s : AppState) :
    (s.ciFile.isNone && s.plFile.isNone && s.blFile.isNone) = !anyFileUploaded s := by
  obtain ⟨ci, pl, bl, l, st, r, e, c⟩ := s
  cases ci <;> cases pl <;> cases bl <;> simp [anyFileUploaded]

lemma handleFileChange_loading (slot : Slot) (files : Option (List File)) (s : AppState) :
    (handleFileChange slot files s).loading = s.loading := by
  match files with
  | none => rfl
  | some [] => rfl
  | some (f :: fs) => cases slot <;> rfl

lemma handleCopy_loading (s : AppState) : (handleCopy s).state.loading = s.loading := by
  unfold handleCopy
  split <;> rfl

lemma completeAnalyze_loading (c : Completion) (s : AppState) :
    (completeAnalyze c s).loading = false := by
  cases c <;> rfl

/-- Flight invariant: the outstanding-request count mirrors the loading
flag. -/
lemma reachable_flight {m : MachineState} (h : Reachable m) :
    m.outstanding = (if m.app.loading then 1 else 0) := by
  induction h with
  | init => rfl
  | @step m m' hr hs ih =>
      cases hs with
      | select slot files mm => simpa [handleFileChange_loading] using ih
      | trigger mm hdis =>
          simp only [analyzeButtonDisabled, Bool.or_eq_false_iff] at hdis
          simp [startAnalyze, ih, hdis.2]
      | complete c mm n hn =>
          have hl : m.app.loading = true := by
            by_contra hfalse
            rw [Bool.not_eq_true] at hfalse
            rw [ih, hfalse] at hn
            simp at hn
          have hn0 : n = 0 := by
            rw [ih, hl] at hn
            simp at hn
            omega
          simp [completeAnalyze_loading, hn0]
      | copy mm => simpa [handleCopy_loading] using ih
      | timer t mm => simpa [fireTimer] using ih

lemma encodeTrace_ok (o : Oracle) (fs : List File)
    (h : ∀ f ∈ fs, o.readFails f = false) :
    encodeTrace o fs = (fs.map fileToGenerativePart, true) := by
  induction fs with
  | nil => rfl
  | cons f fs ih =>
      have hf : o.readFails f = false := h f (List.mem_cons_self f fs)
      have hrest := ih (fun g hg => h g (List.mem_cons_of_mem f hg))
      simp [encodeTrace, hf, hrest]

lemma map_populatedFiles (s : AppState) :
    (populatedFiles s).map fileToGenerativePart =
      (s.ciFile.map fileToGenerativePart).toList ++
      (s.plFile.map fileToGenerativePart).toList ++
      (s.blFile.map fileToGenerativePart).toList := by
  obtain ⟨ci, pl, bl, l, st, r, e, c⟩ := s
  cases ci <;> cases pl <;> cases bl <;> simp [populatedFiles]

lemma catchMsg_empty_response :
    catchMsg (Thrown.error emptyResponseMsg) = emptyResponseMsg := by decide

lemma catchMsg_missing_key :
    catchMsg (Thrown.error apiKeyMissingMsg) = apiKeyMissingMsg := by decide

/-- Characterization of an accepted `handleAnalyze` run with a present
key and fully successful file encoding. -/
lemma handleAnalyze_sent (o : Oracle) (k : String) (s : AppState)
    (hAny : anyFileUploaded s = true)
    (hread : ∀ f ∈ populatedFiles s, o.readFails f = false) :
    handleAnalyze o (some k) s =
      (let req := assembledRequest s
      let enc := (populatedFiles s).map fileToGenerativePart
      let s3 : AppState := { s with
        loading := true, result := "", error := "",
        copyButtonText := "Copy", statusMessage := analyzingMsg }
      match o.net req with
      | NetReply.success text =>
          if text = "" then
            ⟨finallyStep { s3 with error := emptyResponseMsg }, [req], enc⟩
          else
            ⟨finallyStep { s3 with result := text }, [req], enc⟩
      | NetReply.thrown t => ⟨finallyStep { s3 with error := catchMsg t }, [req], enc⟩) := by
  have hcond : (s.ciFile.isNone && s.plFile.isNone && s.blFile.isNone) = false := by
    rw [slots_none_iff, hAny]
    rfl
  have henc := encodeTrace_ok o (populatedFiles s) hread
  have hparts : assembledRequest s =
      { model := modelName,
        parts := Part.text analyzePrompt :: (populatedFiles s).map fileToGenerativePart } := by
    rw [assembledRequest, map_populatedFiles]
  simp only [handleAnalyze, hcond, Bool.false_eq_true, if_false, henc, hparts,
    catchMsg_empty_response]

lemma catchMsg_ne_empty (t : Thrown) (h : ∀ m, t = Thrown.error m → m ≠ "") :
    catchMsg t ≠ "" := by
  cases t with
  | error m =>
      simp only [catchMsg]
      split
      · decide
      · exact h m rfl
  | nonError => decide

/-- The network-call list of an accepted run with a present key and
successful encoding is exactly the assembled request. -/
lemma handleAnalyze_calls (o : Oracle) (k : String) (s : AppState)
    (hAny : anyFileUploaded s = true)
    (hread : ∀ f ∈ populatedFiles s, o.readFails f = false) :
    (handleAnalyze o (some k) s).calls = [assembledRequest s] := by
  rw [handleAnalyze_sent o k s hAny hread]
  dsimp only
  cases o.net (assembledRequest s) with
  | success text => by_cases htext : text = "" <;> simp [htext]
  | thrown t => rfl

/-- A non-empty successful response is stored verbatim with no error. -/
lemma handleAnalyze_success (o : Oracle) (k : String) (s : AppState) (text : String)
    (hAny : anyFileUploaded s = true)
    (hread : ∀ f ∈ populatedFiles s, o.readFails f = false)
    (hnet : o.net (assembledRequest s) = NetReply.success text) (htext : text ≠ "") :
    (handleAnalyze o (some k) s).finalState.result = text ∧
    (handleAnalyze o (some k) s).finalState.error = "" := by
  rw [handleAnalyze_sent o k s hAny hread]
  dsimp only
  rw [hnet]
  simp [htext, finallyStep]

/-- An empty successful response surfaces the empty-response error. -/
lemma handleAnalyze_emptyResp (o : Oracle) (k : String) (s : AppState)
    (hAny : anyFileUploaded s = true)
    (hread : ∀ f ∈ populatedFiles s, o.readFails f = false)
    (hnet : o.net (assembledRequest s) = NetReply.success "") :
    (handleAnalyze o (some k) s).finalState.error = emptyResponseMsg ∧
    (handleAnalyze o (some k) s).finalState.result = "" := by
  rw [handleAnalyze_sent o k s hAny hread]
  dsimp only
  rw [hnet]
  simp [finallyStep]

/-- A rejected network call surfaces the caught error's message. -/
lemma handleAnalyze_thrown (o : Oracle) (k : String) (s : AppState) (t : Thrown)
    (hAny : anyFileUploaded s = true)
    (hread : ∀ f ∈ populatedFiles s, o.readFails f = false)
    (hnet : o.net (assembledRequest s) = NetReply.thrown t) :
    (handleAnalyze o (some k) s).finalState.error = catchMsg t ∧
    (handleAnalyze o (some k) s).finalState.result = "" := by
  rw [handleAnalyze_sent o k s hAny hread]
  dsimp only
  rw [hnet]
  simp [finallyStep]

/-! ### Sample inputs used by the witnesses -/

/-- A sample invoice file (content is the bytes of "Man"). -/
def sampleCi : File :=
  { name := "invoice.pdf", size := 3, mimeType := "application/pdf", content := [77, 97, 110] }

/-- A sample bill-of-lading file. -/
def sampleBl : File :=
  { name := "bl.png", size := 2, mimeType := "image/png", content := [77, 97] }

/-- An effect environment in which no `FileReader` fails and the network
answers every request with a fixed non-empty text. -/
def sampleOracle : Oracle :=
  { readFails := fun _ => false, net := fun _ => NetReply.success "Invoice Number: 42" }

/-- A state with the invoice and bill-of-lading slots populated. -/
def sampleState : AppState :=
  { initialState with ciFile := some sampleCi, blFile := some sampleBl }

/-- A state holding a displayed result. -/
def sampleResultState : AppState :=
  { initialState with result := "Invoice Number: 42" }

/-- A state with no slot populated but a stale result and error on
display. -/
def samplePriorState : AppState :=
  { initialState with result := "stale result", error := "stale error" }

/-- The machine state after selecting an invoice file on the initial
render. -/
def sampleSelected : MachineState :=
  ⟨handleFileChange Slot.ci (some [sampleCi]) initialState, 0⟩

/-- The machine state while the triggered request is in flight. -/
def sampleInFlight : MachineState :=
  ⟨startAnalyze sampleSelected.app, 1⟩

/-! ### Claim theorems -/

/-- C1: for every combination of populated slots (at least one populated,
key present, every encoding succeeding), the single outbound request
consists of the fixed instruction text as its first part followed by
exactly one base64-plus-MIME-type encoded part per populated slot, in the
fixed order invoice, packing list, bill of lading, with unpopulated slots
omitted; since the request is a function of the slot contents alone, it
is independent of the order in which the user selected the files. -/
theorem request_part_order (o : Oracle) (k : String) (s : AppState)
    (hAny : anyFileUploaded s = true)
    (hread : ∀ f ∈ populatedFiles s, o.readFails f = false) :
    (handleAnalyze o (some k) s).calls =
      [{ model := modelName,
         parts := Part.text analyzePrompt ::
           ((s.ciFile.map fileToGenerativePart).toList ++
            (s.plFile.map fileToGenerativePart).toList ++
            (s.blFile.map fileToGenerativePart).toList) }] := by
  rw [handleAnalyze_calls o k s hAny hread, assembledRequest]

/-- C1 witness: with invoice and bill-of-lading populated, the request is
the prompt followed by the two encoded parts in slot order. -/
theorem request_part_order_witness :
    (handleAnalyze sampleOracle (some "key") sampleState).calls =
      [{ model := modelName,
         parts := Part.text analyzePrompt ::
           ((sampleState.ciFile.map fileToGenerativePart).toList ++
            (sampleState.plFile.map fileToGenerativePart).toList ++
            (sampleState.blFile.map fileToGenerativePart).toList) }] :=
  request_part_order sampleOracle "key" sampleState (by decide) (by decide)

/-- C2: with at least one slot populated and no API key in the
environment, the attempt issues no network call, encodes nothing, and
surfaces the fixed configuration-error message, which differs from the
generic runtime-error message and from the empty-response error
message. -/
theorem missing_key_config_error (o : Oracle) (s : AppState)
    (hAny : anyFileUploaded s = true) :
    (handleAnalyze o none s).calls = [] ∧
    (handleAnalyze o none s).encoded = [] ∧
    (handleAnalyze o none s).finalState.error = apiKeyMissingMsg ∧
    apiKeyMissingMsg ≠ unexpectedMsg ∧
    apiKeyMissingMsg ≠ emptyResponseMsg := by
  have hcond : (s.ciFile.isNone && s.plFile.isNone && s.blFile.isNone) = false := by
    rw [slots_none_iff, hAny]
    rfl
  refine ⟨?_, ?_, ?_, by decide, by decide⟩ <;>
    simp [handleAnalyze, hcond, catchMsg_missing_key, finallyStep]

/-- C2 witness: the missing-key outcome on a state with two populated
slots. -/
theorem missing_key_config_error_witness :
    (handleAnalyze sampleOracle none sampleState).calls = [] ∧
    (handleAnalyze sampleOracle none sampleState).encoded = [] ∧
    (handleAnalyze sampleOracle none sampleState).finalState.error = apiKeyMissingMsg ∧
    apiKeyMissingMsg ≠ unexpectedMsg ∧
    apiKeyMissingMsg ≠ emptyResponseMsg :=
  missing_key_config_error sampleOracle sampleState (by decide)

/-- C3: when the network call succeeds, a non-empty response text is
stored verbatim as the result with no error, while an empty response text
surfaces the empty-response error message and stores no result. -/
theorem response_verbatim_or_empty_error (o : Oracle) (k : String) (s : AppState)
    (text : String)
    (hAny : anyFileUploaded s = true)
    (hread : ∀ f ∈ populatedFiles s, o.readFails f = false)
    (hnet : o.net (assembledRequest s) = NetReply.success text) :
    (text ≠ "" →
      (handleAnalyze o (some k) s).finalState.result = text ∧
      (handleAnalyze o (some k) s).finalState.error = "") ∧
    (text = "" →
      (handleAnalyze o (some k) s).finalState.error = emptyResponseMsg ∧
      (handleAnalyze o (some k) s).finalState.result = "") := by
  constructor
  · intro htext
    exact handleAnalyze_success o k s text hAny hread hnet htext
  · intro htext
    subst htext
    exact handleAnalyze_emptyResp o k s hAny hread hnet

/-- C3 witness: the sample oracle's non-empty response text is stored
verbatim with no error. -/
theorem response_verbatim_or_empty_error_witness :
    (handleAnalyze sampleOracle (some "key") sampleState).finalState.result =
      "Invoice Number: 42" ∧
    (handleAnalyze sampleOracle (some "key") sampleState).finalState.error = "" :=
  (response_verbatim_or_empty_error sampleOracle "key" sampleState "Invoice Number: 42"
    (by decide) (by decide) rfl).1 (by decide)

/-- C4: triggering analysis with zero slots populated sets the
user-input error message, issues no network call and encodes no file. -/
theorem zero_files_rejected (o : Oracle) (k : Option String) (s : AppState)
    (hNone : anyFileUploaded s = false) :
    (handleAnalyze o k s).finalState.error = noDocsMsg ∧
    (handleAnalyze o k s).calls = [] ∧
    (handleAnalyze o k s).encoded = [] := by
  have hcond : (s.ciFile.isNone && s.plFile.isNone && s.blFile.isNone) = true := by
    rw [slots_none_iff, hNone]
    rfl
  simp [handleAnalyze, hcond]

/-- C4 witness: the rejection on the initial (empty) state. -/
theorem zero_files_rejected_witness :
    (handleAnalyze sampleOracle (some "key") initialState).finalState.error = noDocsMsg ∧
    (handleAnalyze sampleOracle (some "key") initialState).calls = [] ∧
    (handleAnalyze sampleOracle (some "key") initialState).encoded = [] :=
  zero_files_rejected sampleOracle (some "key") initialState (by decide)

/-- C5: a file-selection event (one carrying at least one file) on any of
the three slots clears both the displayed result and the displayed
error. -/
theorem file_selection_clears_result_error (slot : Slot) (f : File) (fs : List File)
    (s : AppState) :
    (handleFileChange slot (some (f :: fs)) s).result = "" ∧
    (handleFileChange slot (some (f :: fs)) s).error = "" := by
  cases slot <;> simp [handleFileChange, setSlot]

/-- C6: every accepted analysis attempt that fails — missing credential,
file-encoding failure, network rejection (whose `Error` messages are
non-empty), or empty response — ends with a non-empty error message
surfaced and the displayed result cleared. -/
theorem accepted_failure_surfaces_error (o : Oracle) (s : AppState)
    (hAny : anyFileUploaded s = true) :
    ((handleAnalyze o none s).finalState.error ≠ "" ∧
     (handleAnalyze o none s).finalState.result = "") ∧
    (∀ k, (encodeTrace o (populatedFiles s)).2 = false →
      (handleAnalyze o (some k) s).finalState.error ≠ "" ∧
      (handleAnalyze o (some k) s).finalState.result = "") ∧
    (∀ k t, (∀ f ∈ populatedFiles s, o.readFails f = false) →
      o.net (assembledRequest s) = NetReply.thrown t →
      (∀ m, t = Thrown.error m → m ≠ "") →
      (handleAnalyze o (some k) s).finalState.error ≠ "" ∧
      (handleAnalyze o (some k) s).finalState.result = "") ∧
    (∀ k, (∀ f ∈ populatedFiles s, o.readFails f = false) →
      o.net (assembledRequest s) = NetReply.success "" →
      (handleAnalyze o (some k) s).finalState.error ≠ "" ∧
      (handleAnalyze o (some k) s).finalState.result = "") := by
  have hcond : (s.ciFile.isNone && s.plFile.isNone && s.blFile.isNone) = false := by
    rw [slots_none_iff, hAny]
    rfl
  refine ⟨?_, ?_, ?_, ?_⟩
  · have h1 : (handleAnalyze o none s).finalState.error = apiKeyMissingMsg ∧
        (handleAnalyze o none s).finalState.result = "" := by
      constructor <;> simp [handleAnalyze, hcond, catchMsg_missing_key, finallyStep]
    refine ⟨?_, h1.2⟩
    rw [h1.1]
    decide
  · intro k henc
    cases h2 : encodeTrace o (populatedFiles s) with
    | mk enc ok =>
        rw [h2] at henc
        subst henc
        constructor <;> simp [handleAnalyze, hcond, h2, catchMsg, finallyStep, unexpectedMsg]
  · intro k t hread hnet hmsg
    obtain ⟨he, hr⟩ := handleAnalyze_thrown o k s t hAny hread hnet
    exact ⟨he ▸ catchMsg_ne_empty t hmsg, hr⟩
  · intro k hread hnet
    obtain ⟨he, hr⟩ := handleAnalyze_emptyResp o k s hAny hread hnet
    refine ⟨?_, hr⟩
    rw [he]
    decide

/-- C6 witness: the missing-credential failure mode on a populated
state. -/
theorem accepted_failure_surfaces_error_witness :
    (handleAnalyze sampleOracle none sampleState).finalState.error ≠ "" ∧
    (handleAnalyze sampleOracle none sampleState).finalState.result = "" :=
  (accepted_failure_surfaces_error sampleOracle sampleState (by decide)).1

/-- C7: in every reachable UI state the analyze button is disabled while
a request is in flight or while no slot is populated, and at most one
network request is outstanding. -/
theorem single_request_in_flight (m : MachineState) (h : Reachable m) :
    (m.app.loading = true ∨ anyFileUploaded m.app = false →
      analyzeButtonDisabled m.app = true) ∧
    m.outstanding ≤ 1 := by
  refine ⟨?_, ?_⟩
  · intro hc
    unfold analyzeButtonDisabled
    cases hc with
    | inl hl => simp [hl]
    | inr hnf => simp [hnf]
  · rw [reachable_flight h]
    split <;> omega

/-- C7 witness: the state reached by selecting an invoice and triggering
analysis has its single request in flight and the button disabled. -/
theorem single_request_in_flight_witness :
    (sampleInFlight.app.loading = true ∨ anyFileUploaded sampleInFlight.app = false →
      analyzeButtonDisabled sampleInFlight.app = true) ∧
    sampleInFlight.outstanding ≤ 1 :=
  single_request_in_flight sampleInFlight
    (Reachable.step
      (Reachable.step Reachable.init
        (Step.select Slot.ci (some [sampleCi]) ⟨initialState, 0⟩))
      (Step.trigger sampleSelected (by decide)))

/-- C8: invoking copy with a non-empty displayed result writes exactly
that text to the clipboard, switches the label to `Copied!`, schedules a
single 2000 ms timer, and firing that timer reverts the label to
`Copy`. -/
theorem copy_nonempty_result (s : AppState) (h : s.result ≠ "") :
    (handleCopy s).clipboardWrites = [s.result] ∧
    (handleCopy s).state.copyButtonText = "Copied!" ∧
    (handleCopy s).timers = [(2000, "Copy")] ∧
    (fireTimer (2000, "Copy") (handleCopy s).state).copyButtonText = "Copy" := by
  simp [handleCopy, h, fireTimer]

/-- C8 witness: copying a concrete non-empty result. -/
theorem copy_nonempty_result_witness :
    (handleCopy sampleResultState).clipboardWrites = [sampleResultState.result] ∧
    (handleCopy sampleResultState).state.copyButtonText = "Copied!" ∧
    (handleCopy sampleResultState).timers = [(2000, "Copy")] ∧
    (fireTimer (2000, "Copy") (handleCopy sampleResultState).state).copyButtonText = "Copy" :=
  copy_nonempty_result sampleResultState (by decide)

/-- C9: invoking copy with an empty displayed result is a no-op: the
state is unchanged, nothing is written to the clipboard and no timer is
scheduled. -/
theorem copy_empty_noop (s : AppState) (h : s.result = "") :
    handleCopy s = { state := s, clipboardWrites := [], timers := [] } := by
  simp [handleCopy, h]

/-- C9 witness: the no-op on the initial state. -/
theorem copy_empty_noop_witness :
    handleCopy initialState =
      { state := initialState, clipboardWrites := [], timers := [] } :=
  copy_empty_noop initialState (by decide)

/-- C10: a trigger with zero slots populated modifies only the error
message: loading flag, slot contents, status message, copy-button label
and any previously displayed result are unchanged — in particular a
prior result is not cleared — and no network call or encoding happens. -/
theorem zero_files_frame (o : Oracle) (k : Option String) (s : AppState)
    (hNone : anyFileUploaded s = false) :
    (handleAnalyze o k s).finalState.result = s.result ∧
    (handleAnalyze o k s).finalState.loading = s.loading ∧
    (handleAnalyze o k s).finalState.ciFile = s.ciFile ∧
    (handleAnalyze o k s).finalState.plFile = s.plFile ∧
    (handleAnalyze o k s).finalState.blFile = s.blFile ∧
    (handleAnalyze o k s).finalState.copyButtonText = s.copyButtonText ∧
    (handleAnalyze o k s).finalState.statusMessage = s.statusMessage ∧
    (handleAnalyze o k s).finalState.error = noDocsMsg ∧
    (handleAnalyze o k s).calls = [] ∧
    (handleAnalyze o k s).encoded = [] := by
  have hcond : (s.ciFile.isNone && s.plFile.isNone && s.blFile.isNone) = true := by
    rw [slots_none_iff, hNone]
    rfl
  simp [handleAnalyze, hcond]

/-- C10 witness: the rejection on a state with a stale result and error
leaves the stale result displayed and changes only the error message. -/
theorem zero_files_frame_witness :
    (handleAnalyze sampleOracle (some "key") samplePriorState).finalState.result =
      samplePriorState.result ∧
    (handleAnalyze sampleOracle (some "key") samplePriorState).finalState.loading =
      samplePriorState.loading ∧
    (handleAnalyze sampleOracle (some "key") samplePriorState).finalState.ciFile =
      samplePriorState.ciFile ∧
    (handleAnalyze sampleOracle (some "key") samplePriorState).finalState.plFile =
      samplePriorState.plFile ∧
    (handleAnalyze sampleOracle (some "key") samplePriorState).finalState.blFile =
      samplePriorState.blFile ∧
    (handleAnalyze sampleOracle (some "key") samplePriorState).finalState.copyButtonText =
      samplePriorState.copyButtonText ∧
    (handleAnalyze sampleOracle (some "key") samplePriorState).finalState.statusMessage =
      samplePriorState.statusMessage ∧
    (handleAnalyze sampleOracle (some "key") samplePriorState).finalState.error = noDocsMsg ∧
    (handleAnalyze sampleOracle (some "key") samplePriorState).calls = [] ∧
    (handleAnalyze sampleOracle (some "key") samplePriorState).encoded = [] :=
  zero_files_frame sampleOracle (some "key") samplePriorState (by decide)

end TradeDocs
